import Mathlib

/-
Shallow embedding of the NYCT No-Writer MVP.

The repository consists of two Deno HTTP handlers
(src/supabase/functions/generate-decline/index.ts: a generate-decline
handler and an analyze-proposal handler) and a React frontend
(src/frontend/src/App.tsx and components).  Both handlers wrap their whole
body in a single try/catch; the catch produces a deterministic fallback
response.  The LLM provider is external: its behavior is modelled as an
explicit environment value (the outcome of each chat-completion call), and
the `OPENAI_API_KEY` credential as an `Option String`.  A missing
credential makes the OpenAI client call throw, which the embedding models
by routing to the catch path whenever the key is absent.

JavaScript-specific behaviors are embedded explicitly:
  * template interpolation of `undefined` prints the string "undefined";
  * `x || d` returns `d` when `x` is undefined or the empty string;
  * `cond ? a : b` treats the empty string as falsy;
  * a `Request` body is a stream: `req.json()` can be re-read only when
    the body is replayable, which the embedding records as a Boolean.
-/

namespace NYCT

/-! ## JavaScript string semantics helpers -/

/-- JS template interpolation of a possibly-undefined string value:
`undefined` interpolates as the literal text "undefined". -/
def jsStr : Option String → String
  | some s => s
  | none => "undefined"

/-- JS truthiness of a possibly-undefined string: `undefined` and the
empty string are falsy. -/
def jsTruthy : Option String → Bool
  | some s => !(s == "")
  | none => false

/-- JS `x || d` on a possibly-undefined string. -/
def jsOr (o : Option String) (d : String) : String :=
  match o with
  | some s => if s == "" then d else s
  | none => d

/-- JS `String.prototype.toLowerCase` restricted to the ASCII labels this
program lowercases (per-character lowering). -/
def jsToLowerCase (s : String) : String :=
  String.mk (s.toList.map Char.toLower)

/-! ## Decline-reason enumeration

Three copies of the same eight-entry code-to-label map appear in the
sources; each is transcribed verbatim from its own site. -/

/-- `reasonDescriptions` from
src/supabase/functions/generate-decline/index.ts lines 9-18. -/
def reasonDescriptions : List (String × String) :=
  [("project_capability", "Project Capability Problems"),
   ("general_operating", "General Operating Support"),
   ("higher_merit", "Other Projects Higher Merit"),
   ("outside_guidelines", "Outside Approved Guidelines"),
   ("incomplete_proposal", "Incomplete Proposal"),
   ("geographic_scope", "Geographic Scope Limitation"),
   ("strategic_mismatch", "Strategic Priority Mismatch"),
   ("sustainability", "Sustainability Concerns")]

/-- One entry of the `DECLINE_REASONS` selection list (value/label pair),
as in the DeclineInput component. -/
structure ReasonOption where
  value : String
  label : String

/-- `DECLINE_REASONS` from the DeclineInput component
(src/unnamed/part_001 lines 11-20). -/
def DECLINE_REASONS : List ReasonOption :=
  [⟨"project_capability", "Project Capability Problems"⟩,
   ⟨"general_operating", "General Operating Support"⟩,
   ⟨"higher_merit", "Other Projects Higher Merit"⟩,
   ⟨"outside_guidelines", "Outside Approved Guidelines"⟩,
   ⟨"incomplete_proposal", "Incomplete Proposal"⟩,
   ⟨"geographic_scope", "Geographic Scope Limitation"⟩,
   ⟨"strategic_mismatch", "Strategic Priority Mismatch"⟩,
   ⟨"sustainability", "Sustainability Concerns"⟩]

/-- `reasonLabels` from src/frontend/src/App.tsx lines 171-180. -/
def reasonLabels : List (String × String) :=
  [("project_capability", "Project Capability Problems"),
   ("general_operating", "General Operating Support"),
   ("higher_merit", "Other Projects Higher Merit"),
   ("outside_guidelines", "Outside Approved Guidelines"),
   ("incomplete_proposal", "Incomplete Proposal"),
   ("geographic_scope", "Geographic Scope Limitation"),
   ("strategic_mismatch", "Strategic Priority Mismatch"),
   ("sustainability", "Sustainability Concerns")]

/-- JS object indexing `map[code]` on one of the label maps. -/
def lookupLabel : String → List (String × String) → Option String
  | _, [] => none
  | code, (k, v) :: rest => if code == k then some v else lookupLabel code rest

theorem lookupLabel_eq_none (code : String) (m : List (String × String))
    (h : code ∉ m.map Prod.fst) : lookupLabel code m = none := by
  induction m with
  | nil => rfl
  | cons p rest ih =>
    obtain ⟨k, v⟩ := p
    simp only [List.map_cons, List.mem_cons] at h
    push_neg at h
    simp only [lookupLabel, beq_iff_eq]
    rw [if_neg h.1]
    exact ih h.2

/-! ## Data model -/

/-- The `ExtractedProposalData` shape
(src/frontend/src/components/ProposalSummary.tsx lines 4-17): a flat
record of optional fields. -/
structure ProposalSummary where
  organizationName : Option String := none
  organizationMission : Option String := none
  foundingYear : Option String := none
  grantAmount : Option String := none
  projectDescription : Option String := none
  targetPopulation : Option String := none
  geographicScope : Option String := none
  currentBudget : Option String := none
  projectBudget : Option String := none
  peopleServed : Option String := none
  keyDeliverables : Option (List String) := none
  timeline : Option String := none

/-- The JSON body of a Generate request:
`{ reason_code, specific_reasons, proposal_summary }`. -/
structure DeclineRequest where
  reason_code : String
  specific_reasons : String
  proposal_summary : ProposalSummary

/-! ## Generate operation (generate-decline handler) -/

/-- Outcome environment of one generate-decline invocation: the
`OPENAI_API_KEY` value and the outcomes of the two chat-completion calls
(`Except.error` models a thrown/rejected call; with no key the client
call itself throws, so these outcomes are consulted only when a key is
present). -/
structure GenEnv where
  apiKey : Option String
  memoResult : Except Unit String
  letterResult : Except Unit String

/-- A generate-decline HTTP request: the result of `await req.json()`
(`none` models a body that fails to parse as JSON) and whether the body
stream can be consumed a second time. -/
structure GenRequest where
  parses : Option DeclineRequest
  reparses : Bool

/-- The JSON response produced by the generate-decline handler, together
with its HTTP status and whether the Content-Type header is
application/json. -/
structure GenResponse where
  internal_rationale : String
  external_reply : String
  generation_time_ms : Nat
  status : Nat
  contentTypeJson : Bool

/-- First sentence plus the opening of the decline sentence of the
fallback memo template (index.ts line 123). -/
def memoHead (ps : ProposalSummary) : String :=
  jsOr ps.organizationName "The organization" ++ " requests " ++
  jsOr ps.grantAmount "funding" ++ " to support " ++
  jsOr ps.projectDescription "their project" ++
  ".\n\nI recommend this request be declined for "

/-- `reasonDescriptions[reason_code]?.toLowerCase() || 'the specified
reason'` (index.ts line 125). -/
def declinePhrase (code : String) : String :=
  jsOr ((lookupLabel code reasonDescriptions).map jsToLowerCase) "the specified reason"

/-- `reasonDescriptions[reason_code] || 'Decline Reason'` (index.ts
line 127). -/
def rationaleLabel (code : String) : String :=
  jsOr (lookupLabel code reasonDescriptions) "Decline Reason"

/-- `fallbackMemo` template (index.ts lines 123-127). -/
def fallbackMemo (ps : ProposalSummary) (code sr : String) : String :=
  memoHead ps ++ declinePhrase code ++ ". " ++ sr ++
  "\n\nRationale: " ++ rationaleLabel code

/-- `fallbackLetter` template (index.ts lines 129-138). -/
def fallbackLetter (ps : ProposalSummary) : String :=
  "Dear " ++ jsOr ps.organizationName "Applicant" ++
  ",\n\nThank you for your proposal submission to The New York Community Trust. We appreciate your organization\x27s dedication to serving the community.\n\nAfter careful review, we have determined that we will not be able to provide funding for this request at this time. While we recognize your important work, this proposal does not align with our current funding priorities.\n\nWe encourage you to review our updated guidelines and consider applying for future opportunities.\n\nBest regards,\nNYCT Program Team"

/-- The success response of the generate-decline handler (index.ts lines
106-116): both model-produced documents, `generation_time_ms: 3000`. -/
def successResponse (memo letter : String) : GenResponse :=
  ⟨memo, letter, 3000, 200, true⟩

/-- The fallback response of the generate-decline handler (index.ts lines
140-150): both documents from the templates, `generation_time_ms: 1000`. -/
def fallbackResponse (r : DeclineRequest) : GenResponse :=
  ⟨fallbackMemo r.proposal_summary r.reason_code r.specific_reasons,
   fallbackLetter r.proposal_summary, 1000, 200, true⟩

/-- The catch block of the generate-decline handler (index.ts lines
117-151).  It begins with a second `await req.json()`; that second read
succeeds only when the body stream is replayable and the body is valid
JSON, otherwise the catch itself throws and no response is produced
(modelled as `Except.error`). -/
def generateCatch (req : GenRequest) : Except Unit GenResponse :=
  if req.reparses then
    match req.parses with
    | some r => .ok (fallbackResponse r)
    | none => .error ()
  else .error ()

/-- The generate-decline handler try/catch (index.ts lines 26-151): parse
the body, then run both chat-completion calls inside one try block; any
throw (body parse failure, missing key, either model call failing) enters
the single catch. -/
def generateHandler (env : GenEnv) (req : GenRequest) : Except Unit GenResponse :=
  match req.parses with
  | none => generateCatch req
  | some _ =>
    match env.apiKey with
    | none => generateCatch req
    | some _ =>
      match env.memoResult with
      | .error _ => generateCatch req
      | .ok memo =>
        match env.letterResult with
        | .error _ => generateCatch req
        | .ok letter => .ok (successResponse memo letter)

/-! ## Analyze operation (analyze-proposal handler)

The model's reply is parsed with `JSON.parse` and forwarded verbatim, so
the reply is modelled as an arbitrary JSON value. -/

/-- A JSON value, as produced by `JSON.parse`. -/
inductive Json where
  | null
  | str (s : String)
  | num (n : Int)
  | jbool (b : Bool)
  | arr (xs : List Json)
  | obj (fields : List (String × Json))

/-- Field access on a JSON object (`none` for absent fields and for
non-object values). -/
def lookupField (j : Json) (n : String) : Option Json :=
  match j with
  | .obj fs => fs.lookup n
  | _ => none

/-- The twelve fields of the declared `ProposalSummary` shape
(ProposalSummary.tsx lines 4-17 / the extraction prompt). -/
def declaredFields : List String :=
  ["organizationName", "organizationMission", "foundingYear", "grantAmount",
   "projectDescription", "targetPopulation", "geographicScope", "currentBudget",
   "projectBudget", "peopleServed", "keyDeliverables", "timeline"]

/-- A JSON value acceptable for a plain declared field: a string or null. -/
def isStrOrNull : Json → Bool
  | .str _ => true
  | .null => true
  | _ => false

/-- A JSON value acceptable for the `keyDeliverables` field: a list of
strings or null. -/
def isStrListOrNull : Json → Bool
  | .arr xs => xs.all fun j => match j with | .str _ => true | _ => false
  | .null => true
  | _ => false

/-- Whether a JSON binding for a declared field has the declared type. -/
def fieldOk (name : String) (j : Json) : Bool :=
  if name == "keyDeliverables" then isStrListOrNull j else isStrOrNull j

/-- A well-formed `ProposalSummary` JSON value: an object in which every
declared field is either absent or bound to a value of its declared
shape (string or null; list of strings or null for `keyDeliverables`). -/
def summaryWellFormed : Json → Bool
  | .obj fs =>
      declaredFields.all fun n =>
        (fs.filter fun p => p.1 == n).all fun p => fieldOk n p.2
  | _ => false

/-- Environment of one analyze-proposal invocation: the `OPENAI_API_KEY`
value and the outcome of the chat-completion call followed by
`JSON.parse` on its content (`Except.error` = the call threw; `.ok none`
= the reply was not valid JSON, so `JSON.parse` threw; `.ok (some j)` =
the reply parsed to `j`). -/
structure AnaEnv where
  apiKey : Option String
  modelReply : Except Unit (Option Json)

/-- The destructured analyze-proposal request body
`{ text_content, filename }`.  `textContent = none` models a body whose
`text_content` field is absent, so that `text_content.substring(0, 8000)`
throws inside the try block. -/
structure AnaInput where
  textContent : Option String
  filename : Option String

/-- An analyze-proposal HTTP request: the result of `await req.json()`
(`none` models a body that fails to parse as JSON). -/
structure AnaRequest where
  parses : Option AnaInput

/-- The JSON response produced by the analyze-proposal handler, with its
HTTP status and whether the Content-Type header is application/json. -/
structure AnaResponse where
  summary : Json
  analysis_time_ms : Nat
  status : Nat
  contentTypeJson : Bool

/-- The constant fallback summary returned by the analyze-proposal catch
block (index.ts lines 234-247). -/
def fallbackSummaryJson : Json :=
  .obj [("organizationName", .str "Organization"),
        ("projectDescription", .str "Unable to fully analyze proposal"),
        ("grantAmount", .str "Unknown")]

/-- The analyze-proposal fallback response: the constant summary with
`analysis_time_ms: 1000`. -/
def analyzeFallbackResponse : AnaResponse :=
  ⟨fallbackSummaryJson, 1000, 200, true⟩

/-- The analyze-proposal handler try/catch (index.ts lines 161-249): any
throw inside the try block (body parse failure, missing `text_content`,
missing key, model call failure, `JSON.parse` failure on the reply)
enters the catch, which builds the constant fallback response.  The
catch reads nothing from the request, so it cannot itself throw. -/
def analyzeHandler (env : AnaEnv) (req : AnaRequest) : AnaResponse :=
  match req.parses with
  | none => analyzeFallbackResponse
  | some inp =>
    match inp.textContent with
    | none => analyzeFallbackResponse
    | some _ =>
      match env.apiKey with
      | none => analyzeFallbackResponse
      | some _ =>
        match env.modelReply with
        | .ok (some j) => ⟨j, 2000, 200, true⟩
        | _ => analyzeFallbackResponse

/-! ## Frontend wizard (src/frontend/src/App.tsx) -/

/-- An HTTP request the frontend can issue from a wizard step. -/
inductive NetworkCall where
  | analyzeCall
  | generateCall

/-- The `GeneratedOutput` shape (App.tsx lines 16-20). -/
structure GeneratedOutput where
  internal_rationale : String
  external_reply : String
  generation_time_ms : Nat

/-- `extractGrantAmount` (App.tsx lines 111-115): first match of the
regular expression matching a dollar sign, then one or more
digits/commas, then an optional two-digit decimal part. -/
def isAmtChar (c : Char) : Bool := c.isDigit || c == ','

/-- Longest prefix of digit/comma characters, with the remainder. -/
def takeWhileAmt : List Char → List Char × List Char
  | [] => ([], [])
  | c :: cs =>
    if isAmtChar c then
      let (a, b) := takeWhileAmt cs
      (c :: a, b)
    else ([], c :: cs)

/-- The optional two-decimal suffix of the amount pattern. -/
def decimalSfx : List Char → List Char
  | '.' :: d1 :: d2 :: _ => if d1.isDigit && d2.isDigit then ['.', d1, d2] else []
  | _ => []

/-- Try the amount pattern anchored at the current position. -/
def matchAmtAt : List Char → Option (List Char)
  | '$' :: rest =>
    let (run, after) := takeWhileAmt rest
    if run.isEmpty then none else some ('$' :: (run ++ decimalSfx after))
  | _ => none

/-- Leftmost match of the amount pattern. -/
def findAmt : List Char → Option (List Char)
  | [] => none
  | c :: cs =>
    match matchAmtAt (c :: cs) with
    | some m => some m
    | none => findAmt cs

/-- `extractGrantAmount` (App.tsx lines 111-115). -/
def extractGrantAmount (text : String) : Option String :=
  (findAmt text.toList).map fun cs => String.mk cs

/-- JS `text.substring(0, n)` on ASCII text, as used for the frontend
fallback project description (App.tsx lines 76 and 89). -/
def jsSubstring (t : String) (n : Nat) : String :=
  String.mk (t.toList.take n)

/-- `generateNYCTFormattedMemo` (App.tsx lines 166-187), transcribed from
the template literal with JS interpolation semantics. -/
def generateNYCTFormattedMemo (summary : ProposalSummary)
    (reasonCode specificReasons : String) : String :=
  jsStr summary.organizationName ++
  (if jsTruthy summary.foundingYear then
    ", founded in " ++ jsStr summary.foundingYear ++ "," else "") ++
  " " ++ jsOr summary.organizationMission "serves the community" ++
  ". This " ++ jsStr summary.grantAmount ++ " request is to support " ++
  jsStr summary.projectDescription ++ ". " ++
  (if jsTruthy summary.projectBudget then
    "The project budget is " ++ jsStr summary.projectBudget else "") ++
  (if jsTruthy summary.currentBudget then
    " and the organization\x27s current operating budget is " ++
    jsStr summary.currentBudget ++ "." else ".") ++
  "\n\nI recommend this request be declined for " ++
  jsOr ((lookupLabel reasonCode reasonLabels).map jsToLowerCase) "the selected reason" ++
  ". " ++ specificReasons ++
  "\n\nRationale: " ++ jsOr (lookupLabel reasonCode reasonLabels) "Decline Reason"

/-- `generateExternalLetter` (App.tsx lines 189-202): a fixed letter;
the `_reasonCode` parameter is ignored. -/
def generateExternalLetter (_reasonCode : String) : String :=
  "Dear Applicant,\n\nThank you for your proposal submission to The New York Community Trust. We genuinely appreciate your organization\x27s dedication to serving the community and the considerable time you invested in preparing your application.\n\nAfter careful review by our program team and board, we have determined that we will not be able to provide funding for this request at this time. While we recognize the important work your organization does, this proposal does not align with our current funding priorities.\n\nWe encourage you to review our updated funding guidelines on our website and invite you to consider applying for future opportunities that may better align with your organization\x27s mission and our strategic priorities.\n\nThank you again for considering The New York Community Trust as a potential partner in your work.\n\nBest regards,\nNYCT Program Team"

/-- `handleGenerateDecline` (App.tsx lines 139-164): the wizard's
generate step.  It computes both documents locally from the two template
functions and issues no HTTP request; the second component records the
network calls the step performs. -/
def handleGenerateDecline (summary : ProposalSummary)
    (reasonCode specificReasons : String) : GeneratedOutput × List NetworkCall :=
  (⟨generateNYCTFormattedMemo summary reasonCode specificReasons,
    generateExternalLetter reasonCode, 2000⟩, [])

/-! ## Claim theorems -/

set_option maxRecDepth 8192 in
/-- C5: with no credential configured, for the Generate request
`reason_code = "sustainability"`,
`specific_reasons = "No plan to sustain funding after grant period."` and
summary `{organizationName: "Acme Org", grantAmount: "$20,000",
projectDescription: "clothing drive"}`, the handler produces the fallback
response and the fallback internal rationale ends with the literal line
`Rationale: Sustainability Concerns`. -/
theorem fallback_memo_sustainability_rationale_line :
    generateHandler ⟨none, .error (), .error ()⟩
        ⟨some ⟨"sustainability", "No plan to sustain funding after grant period.",
          { organizationName := some "Acme Org", grantAmount := some "$20,000",
            projectDescription := some "clothing drive" }⟩, true⟩ =
      .ok (fallbackResponse ⟨"sustainability", "No plan to sustain funding after grant period.",
          { organizationName := some "Acme Org", grantAmount := some "$20,000",
            projectDescription := some "clothing drive" }⟩) ∧
    ∃ pre, fallbackMemo
        { organizationName := some "Acme Org", grantAmount := some "$20,000",
          projectDescription := some "clothing drive" }
        "sustainability" "No plan to sustain funding after grant period." =
      pre ++ "\nRationale: Sustainability Concerns" := by
  refine ⟨rfl, "Acme Org requests $20,000 to support clothing drive.\n\nI recommend this request be declined for sustainability concerns. No plan to sustain funding after grant period.\n", ?_⟩
  decide

/-- C6: for every Generate request whose reason_code is not one of the
eight enumerated codes, label resolution substitutes the generic phrase
"the specified reason" in the generated rationale, and the request is
answered with the fallback response rather than failed. -/
theorem unknown_reason_code_generic_phrase (code : String) (ps : ProposalSummary) (sr : String)
    (h : code ∉ reasonDescriptions.map Prod.fst) :
    declinePhrase code = "the specified reason" ∧
    (∃ pre post, fallbackMemo ps code sr = pre ++ "the specified reason" ++ post) ∧
    generateHandler ⟨none, .error (), .error ()⟩ ⟨some ⟨code, sr, ps⟩, true⟩ =
      .ok (fallbackResponse ⟨code, sr, ps⟩) := by
  have hl : lookupLabel code reasonDescriptions = none := lookupLabel_eq_none code _ h
  have hphrase : declinePhrase code = "the specified reason" := by
    simp [declinePhrase, hl, jsOr]
  refine ⟨hphrase,
    ⟨memoHead ps, ". " ++ sr ++ "\n\nRationale: " ++ rationaleLabel code, ?_⟩, rfl⟩
  rw [fallbackMemo, hphrase]
  simp only [String.append_assoc]

theorem unknown_reason_code_generic_phrase_witness :
    declinePhrase "not_a_real_code" = "the specified reason" ∧
    (∃ pre post, fallbackMemo {} "not_a_real_code" "Too vague." =
      pre ++ "the specified reason" ++ post) ∧
    generateHandler ⟨none, .error (), .error ()⟩
        ⟨some ⟨"not_a_real_code", "Too vague.", {}⟩, true⟩ =
      .ok (fallbackResponse ⟨"not_a_real_code", "Too vague.", {}⟩) :=
  unknown_reason_code_generic_phrase "not_a_real_code" {} "Too vague." (by decide)

/-- C8: the decline-reason enumeration is one static map transcribed at
three sites, and for each of the eight codes the backend label
(reasonDescriptions) is character-for-character identical to the
selection-UI label (DECLINE_REASONS) and to the frontend memo template's
reasonLabels; consequently the same code resolves to the same label
everywhere. -/
theorem reason_label_maps_agree :
    reasonDescriptions = reasonLabels ∧
    DECLINE_REASONS.map (fun o => (o.value, o.label)) = reasonDescriptions ∧
    ∀ code : String, lookupLabel code reasonDescriptions = lookupLabel code reasonLabels :=
  ⟨rfl, rfl, fun _ => rfl⟩

/-- C10: the UI wizard's generate step computes both outputs locally (it
issues no network call), the internal rationale is template
interpolation of the summary, and the external reply equals the constant
produced by generateExternalLetter for EVERY reason-code argument (the
function ignores its argument). -/
theorem frontend_generate_local_and_letter_constant (s : ProposalSummary)
    (rc sr rc2 : String) :
    (handleGenerateDecline s rc sr).2 = [] ∧
    (handleGenerateDecline s rc sr).1.external_reply = generateExternalLetter rc2 ∧
    (handleGenerateDecline s rc sr).1.internal_rationale = generateNYCTFormattedMemo s rc sr :=
  ⟨rfl, rfl, rfl⟩

/-- The C1 scenario request body. -/
def c1Body : DeclineRequest :=
  ⟨"sustainability", "No plan to sustain funding after grant period.",
   { organizationName := some "Acme Org", grantAmount := some "$20,000",
     projectDescription := some "clothing drive" }⟩

/-- The C1 scenario environment: credential present, internal-rationale
call succeeds with "MODEL MEMO", external-letter call fails. -/
def c1Env : GenEnv := ⟨some "sk-test", .ok "MODEL MEMO", .error ()⟩

/-- C1 counterexample: with a credential configured, the
internal-rationale call succeeding (producing "MODEL MEMO") and the
external-letter call failing, the handler's single catch replaces BOTH
documents: the response's internal_rationale is the fallback memo, not
the model-produced one, refuting "one model-produced, one fallback". -/
theorem generate_letter_failure_discards_model_memo :
    c1Env.memoResult = .ok "MODEL MEMO" ∧
    c1Env.letterResult = .error () ∧
    generateHandler c1Env ⟨some c1Body, true⟩ = .ok (fallbackResponse c1Body) ∧
    (fallbackResponse c1Body).internal_rationale ≠ "MODEL MEMO" :=
  ⟨rfl, rfl, rfl, by decide⟩

/-- C1 amended: if either model call fails (or no credential is
configured) and the request body can be parsed a second time, the single
catch block replaces BOTH documents with the deterministic fallback
templates; the response still carries a value for both fields, but both
are fallback-produced — the two documents do not fail independently. -/
theorem generate_failure_replaces_both_documents (env : GenEnv) (req : GenRequest)
    (r : DeclineRequest) (hp : req.parses = some r) (hr : req.reparses = true)
    (hfail : env.apiKey = none ∨ env.memoResult = .error () ∨ env.letterResult = .error ()) :
    generateHandler env req = .ok (fallbackResponse r) := by
  obtain ⟨key, memoR, letterR⟩ := env
  obtain ⟨p, rp⟩ := req
  have hp' : p = some r := hp
  have hr' : rp = true := hr
  subst hp'
  subst hr'
  cases key <;> cases memoR <;> cases letterR <;>
    first
      | rfl
      | (rcases hfail with h | h | h <;> simp_all)

theorem generate_failure_replaces_both_documents_witness :
    generateHandler ⟨none, .error (), .error ()⟩ ⟨some c1Body, true⟩ =
      .ok (fallbackResponse c1Body) :=
  generate_failure_replaces_both_documents _ _ c1Body rfl rfl (Or.inl rfl)

/-- The C4 scenario request body. -/
def c4Body : DeclineRequest :=
  ⟨"higher_merit", "Stronger competing proposals this cycle.",
   { organizationName := some "Beta Org" }⟩

/-- C4: the generate catch block performs a second `await req.json()` on
the same request; when the try block throws after the first successful
parse, the fallback memo and letter are produced exactly when the body
can be parsed a second time, and for a one-shot body the handler fails
without producing the documented fallback. -/
theorem generate_fallback_requires_replayable_body (env : GenEnv) (req : GenRequest)
    (r : DeclineRequest) (hp : req.parses = some r)
    (hfail : env.apiKey = none ∨ env.memoResult = .error () ∨ env.letterResult = .error ()) :
    generateHandler env req =
      (if req.reparses then .ok (fallbackResponse r) else .error ()) := by
  obtain ⟨key, memoR, letterR⟩ := env
  obtain ⟨p, rp⟩ := req
  have hp' : p = some r := hp
  subst hp'
  cases rp <;> cases key <;> cases memoR <;> cases letterR <;>
    first
      | rfl
      | (rcases hfail with h | h | h <;> simp_all)

theorem generate_fallback_requires_replayable_body_witness :
    generateHandler ⟨none, .ok "memo", .ok "letter"⟩ ⟨some c4Body, false⟩ =
      (if (⟨some c4Body, false⟩ : GenRequest).reparses then .ok (fallbackResponse c4Body)
       else .error ()) :=
  generate_fallback_requires_replayable_body _ _ c4Body rfl (Or.inl rfl)

/-- C7: for every non-OPTIONS request, every response either handler
produces has HTTP status 200 with a JSON body; Analyze always produces
one, and Generate's success and fallback responses are both 200
(failures are encoded in-band, never via HTTP status). -/
theorem handlers_respond_200_json :
    (∀ env req, (analyzeHandler env req).status = 200 ∧
      (analyzeHandler env req).contentTypeJson = true) ∧
    (∀ env req resp, generateHandler env req = .ok resp →
      resp.status = 200 ∧ resp.contentTypeJson = true) := by
  constructor
  · intro env req
    obtain ⟨key, reply⟩ := env
    obtain ⟨p⟩ := req
    rcases p with _ | ⟨tc, fn⟩
    · exact ⟨rfl, rfl⟩
    · rcases tc with _ | t
      · exact ⟨rfl, rfl⟩
      · rcases key with _ | k
        · exact ⟨rfl, rfl⟩
        · rcases reply with e | o
          · exact ⟨rfl, rfl⟩
          · rcases o with _ | j
            · exact ⟨rfl, rfl⟩
            · exact ⟨rfl, rfl⟩
  · intro env req resp h
    unfold generateHandler generateCatch at h
    repeat' split at h
    all_goals first
      | exact Except.noConfusion h
      | (have h2 := Except.ok.inj h; subst h2; exact ⟨rfl, rfl⟩)

theorem handlers_respond_200_json_witness :
    ((analyzeHandler ⟨none, .error ()⟩ ⟨none⟩).status = 200 ∧
      (analyzeHandler ⟨none, .error ()⟩ ⟨none⟩).contentTypeJson = true) ∧
    ((successResponse "memo" "letter").status = 200 ∧
      (successResponse "memo" "letter").contentTypeJson = true) :=
  ⟨handlers_respond_200_json.1 ⟨none, .error ()⟩ ⟨none⟩,
   handlers_respond_200_json.2 ⟨some "sk-test", .ok "memo", .ok "letter"⟩
     ⟨some ⟨"sustainability", "sr", {}⟩, true⟩ (successResponse "memo" "letter") rfl⟩

/-- C9: with no model credential configured, both operations are
deterministic fallbacks: the response does not depend on the model
environment at all, so two invocations with identical inputs yield
identical responses, including the hardcoded analysis_time_ms of 1000. -/
theorem no_credential_fallback_deterministic (e1 e2 : AnaEnv) (req : AnaRequest)
    (h1 : e1.apiKey = none) (h2 : e2.apiKey = none)
    (g1 g2 : GenEnv) (greq : GenRequest)
    (k1 : g1.apiKey = none) (k2 : g2.apiKey = none) :
    analyzeHandler e1 req = analyzeHandler e2 req ∧
    (analyzeHandler e1 req).analysis_time_ms = 1000 ∧
    generateHandler g1 greq = generateHandler g2 greq := by
  obtain ⟨a1, r1⟩ := e1
  obtain ⟨a2, r2⟩ := e2
  obtain ⟨b1, m1, l1⟩ := g1
  obtain ⟨b2, m2, l2⟩ := g2
  have h1' : a1 = none := h1
  have h2' : a2 = none := h2
  have k1' : b1 = none := k1
  have k2' : b2 = none := k2
  subst h1'
  subst h2'
  subst k1'
  subst k2'
  obtain ⟨p⟩ := req
  obtain ⟨q, rp⟩ := greq
  refine ⟨?_, ?_, ?_⟩
  · rcases p with _ | ⟨tc, fn⟩
    · rfl
    · rcases tc with _ | t <;> rfl
  · rcases p with _ | ⟨tc, fn⟩
    · rfl
    · rcases tc with _ | t <;> rfl
  · rcases q with _ | r <;> rfl

theorem no_credential_fallback_deterministic_witness :
    analyzeHandler ⟨none, .error ()⟩ ⟨some ⟨some "Proposal text", some "a.pdf"⟩⟩ =
      analyzeHandler ⟨none, .ok (some (Json.str "ignored"))⟩
        ⟨some ⟨some "Proposal text", some "a.pdf"⟩⟩ ∧
    (analyzeHandler ⟨none, .error ()⟩
      ⟨some ⟨some "Proposal text", some "a.pdf"⟩⟩).analysis_time_ms = 1000 ∧
    generateHandler ⟨none, .ok "m1", .ok "l1"⟩ ⟨some ⟨"sustainability", "sr", {}⟩, true⟩ =
      generateHandler ⟨none, .error (), .error ()⟩
        ⟨some ⟨"sustainability", "sr", {}⟩, true⟩ :=
  no_credential_fallback_deterministic _ _ _ rfl rfl _ _ _ rfl rfl

/-- C2 amended: Analyze never surfaces an unhandled error — it always
returns a 200 response — and its summary is either the constant fallback
(which is a well-formed ProposalSummary) or exactly the model's parsed
JSON reply, forwarded without validation. -/
theorem analyze_total_and_shape (env : AnaEnv) (req : AnaRequest) :
    (analyzeHandler env req).status = 200 ∧
    ((analyzeHandler env req).summary = fallbackSummaryJson ∨
      env.modelReply = .ok (some ((analyzeHandler env req).summary))) ∧
    summaryWellFormed fallbackSummaryJson = true := by
  obtain ⟨key, reply⟩ := env
  obtain ⟨p⟩ := req
  rcases p with _ | ⟨tc, fn⟩
  · exact ⟨rfl, Or.inl rfl, rfl⟩
  · rcases tc with _ | t
    · exact ⟨rfl, Or.inl rfl, rfl⟩
    · rcases key with _ | k
      · exact ⟨rfl, Or.inl rfl, rfl⟩
      · rcases reply with e | o
        · exact ⟨rfl, Or.inl rfl, rfl⟩
        · rcases o with _ | j
          · exact ⟨rfl, Or.inl rfl, rfl⟩
          · exact ⟨rfl, Or.inr rfl, rfl⟩

/-- C2 counterexample: with a credential configured and the model
replying with the valid JSON object binding organizationName to the
number 42, the handler forwards that object verbatim: the declared field
organizationName is present but is neither a string nor null, so the
returned summary is not a well-formed ProposalSummary. -/
theorem analyze_forwards_malformed_model_summary :
    (analyzeHandler
        ⟨some "sk-test", .ok (some (Json.obj [("organizationName", Json.num 42)]))⟩
        ⟨some ⟨some "Proposal text", some "a.pdf"⟩⟩).summary =
      Json.obj [("organizationName", Json.num 42)] ∧
    lookupField (Json.obj [("organizationName", Json.num 42)]) "organizationName" =
      some (Json.num 42) ∧
    isStrOrNull (Json.num 42) = false ∧
    summaryWellFormed (Json.obj [("organizationName", Json.num 42)]) = false :=
  ⟨rfl, rfl, rfl, rfl⟩

/-- The C3 scenario input text, containing a $-prefixed amount. -/
def c3Text : String := "Organization: Test Org\nFounded: 2020\nGrant Request: $50,000"

/-- C3 counterexample: with no credential and input text containing
"$50,000", the Analyze fallback summary is the fixed constant object:
its grantAmount is "Unknown" rather than the $-pattern match "$50,000"
that the frontend extractor finds in the same text, and its
projectDescription is the constant "Unable to fully analyze proposal"
rather than the first slice of the input text. -/
theorem analyze_fallback_not_input_derived :
    extractGrantAmount c3Text = some "$50,000" ∧
    analyzeHandler ⟨none, .error ()⟩ ⟨some ⟨some c3Text, some "test-proposal.pdf"⟩⟩ =
      analyzeFallbackResponse ∧
    lookupField fallbackSummaryJson "grantAmount" = some (Json.str "Unknown") ∧
    "Unknown" ≠ "$50,000" ∧
    lookupField fallbackSummaryJson "projectDescription" =
      some (Json.str "Unable to fully analyze proposal") ∧
    "Unable to fully analyze proposal" ≠ jsSubstring c3Text 200 :=
  ⟨by decide, rfl, rfl, by decide, rfl, by decide⟩

/-- C3 amended: when no credential is configured or the model call
fails, Analyze returns the constant fallback summary
(organizationName "Organization", projectDescription "Unable to fully
analyze proposal", grantAmount "Unknown"), independent of the input text
and filename; filename-derived organization labels, first-slice
descriptions and $-pattern grant amounts exist only in the frontend
client's own fallback. -/
theorem analyze_fallback_constant (env : AnaEnv) (req : AnaRequest)
    (h : env.apiKey = none ∨ env.modelReply = .error ()) :
    analyzeHandler env req = analyzeFallbackResponse := by
  obtain ⟨key, reply⟩ := env
  obtain ⟨p⟩ := req
  rcases p with _ | ⟨tc, fn⟩
  · rfl
  · rcases tc with _ | t
    · rfl
    · rcases h with h | h
      · have h' : key = none := h
        subst h'
        rfl
      · have h' : reply = .error () := h
        subst h'
        rcases key with _ | k <;> rfl

theorem analyze_fallback_constant_witness :
    analyzeHandler ⟨none, .error ()⟩ ⟨some ⟨some c3Text, some "test-proposal.pdf"⟩⟩ =
      analyzeFallbackResponse :=
  analyze_fallback_constant _ _ (Or.inl rfl)

end NYCT
